import Mathlib

/-!
# The GLFW driver of `example/ebiten` (`glfwdriver.cpp`, `glfwdriver.h`)

A shallow embedding of the class `GLFWDriver` and theorems about its eight
member functions.

* The windowing library is external to the sources.  It is a parameter: a
  record `GLFW σ` of state transformers over an arbitrary library state `σ`,
  so every theorem holds for every behaviour of the library.
* Each library call made by the driver is recorded, with its arguments and
  its result, in the `log` of the `World`; the order of effects is read off
  that log.
* `double` is modelled by `Double` (finite rational values, infinities, NaN)
  with round-to-nearest-even into binary64; `int` is a 32 bit integer.
* A frame callback is empty or holds a target that returns or throws; an
  exception leaves `Update` at the point where it is thrown.
-/

namespace Ebiten

/-! ## Machine values -/

/-- A pointer value; `nullptr` is address zero. -/
abbrev Ptr := Nat

/-- The null pointer. -/
def nullptr : Ptr := 0

/-- The smallest value of the C++ type `int` (32 bits). -/
def INT_MIN : Int := -2147483648

/-- The largest value of the C++ type `int` (32 bits). -/
def INT_MAX : Int := 2147483647

/-- A value of the C++ type `double`.  A finite value is given by the rational
number it denotes; the sign of zero is not tracked. -/
inductive Double where
  | finite (v : ℚ)
  | inf (negative : Bool)
  | nan
deriving DecidableEq

/-- The power of two `2 ^ e` for an integer exponent, as a rational. -/
def pow2 (e : Int) : ℚ :=
  if 0 ≤ e then ((2 ^ e.toNat : Nat) : ℚ) else 1 / ((2 ^ (-e).toNat : Nat) : ℚ)

/-- The binary exponent of a nonzero rational `a`: the integer `e` with
`2 ^ e ≤ |a| < 2 ^ (e + 1)`. -/
def floorLog2 (a : ℚ) : Int :=
  let e0 : Int := (Nat.log2 a.num.natAbs : Int) - (Nat.log2 a.den : Int)
  if pow2 e0 ≤ |a| then e0 else e0 - 1

/-- Rounding of a rational to the nearest integer, ties to the even one. -/
def roundHalfEven (m : ℚ) : Int :=
  let f := ⌊m⌋
  let r := m - f
  if r < 1 / 2 then f
  else if 1 / 2 < r then f + 1
  else if f % 2 = 0 then f else f + 1

/-- Rounding of an exact result to binary64 (53 bit significand, exponents
`-1022 .. 1023`, gradual underflow, overflow to infinity), in the default
rounding mode round-to-nearest, ties-to-even. -/
def round64 (q : ℚ) : Double :=
  if q = 0 then Double.finite 0
  else
    let e := max (floorLog2 q) (-1022)
    let u := pow2 (e - 52)
    let r := (roundHalfEven (|q| / u) : ℚ) * u
    if pow2 1024 ≤ r then Double.inf (decide (q < 0))
    else Double.finite (if q < 0 then -r else r)

/-- The conversion `static_cast<double>(i)` of an integer. -/
def Double.ofInt (i : Int) : Double := round64 (i : ℚ)

/-- The division `a / b` of two doubles. -/
def Double.div : Double → Double → Double
  | Double.nan, _ => Double.nan
  | _, Double.nan => Double.nan
  | Double.inf _, Double.inf _ => Double.nan
  | Double.inf s, Double.finite b => Double.inf (xor s (decide (b < 0)))
  | Double.finite _, Double.inf _ => Double.finite 0
  | Double.finite a, Double.finite b =>
    if b = 0 then (if a = 0 then Double.nan else Double.inf (decide (a < 0)))
    else round64 (a / b)

/-- Truncation of a rational toward zero. -/
def truncate (q : ℚ) : Int := if 0 ≤ q then ⌊q⌋ else ⌈q⌉

/-- What the build and the target machine fix. -/
structure Platform where
  /-- Whether `NDEBUG` is defined, so that `assert` expands to nothing. -/
  ndebug : Bool
  /-- The `int` that the conversion of a `double` produces when the truncated
  value is not representable (the C++ standard leaves that case undefined;
  x86-64 produces `INT_MIN` for every such operand). -/
  invalidInt : Double → Int
  /-- Every value of `invalidInt` is an `int`. -/
  invalidInt_range : ∀ d, INT_MIN ≤ invalidInt d ∧ invalidInt d ≤ INT_MAX

/-- The conversion `static_cast<int>(d)`: truncation toward zero when the
truncated value is an `int`. -/
def static_cast_int (P : Platform) (d : Double) : Int :=
  match d with
  | Double.finite v =>
    if INT_MIN ≤ truncate v ∧ truncate v ≤ INT_MAX then truncate v else P.invalidInt d
  | _ => P.invalidInt d

/-! ## The windowing library -/

/-- The value of `GLFW_CLIENT_API` in `GLFW/glfw3.h`. -/
def GLFW_CLIENT_API : Int := 0x00022001

/-- The value of `GLFW_OPENGL_API` in `GLFW/glfw3.h`. -/
def GLFW_OPENGL_API : Int := 0x00030001

/-- The value of `GLFW_CONTEXT_VERSION_MAJOR` in `GLFW/glfw3.h`. -/
def GLFW_CONTEXT_VERSION_MAJOR : Int := 0x00022002

/-- The value of `GLFW_CONTEXT_VERSION_MINOR` in `GLFW/glfw3.h`. -/
def GLFW_CONTEXT_VERSION_MINOR : Int := 0x00022003

/-- The value of `GLFW_MOUSE_BUTTON_LEFT` in `GLFW/glfw3.h`. -/
def GLFW_MOUSE_BUTTON_LEFT : Int := 0

/-- The value of `GLFW_PRESS` in `GLFW/glfw3.h`. -/
def GLFW_PRESS : Int := 1

/-- The functions of the windowing library and of the dynamic loader that the
driver calls, as transformers of the library state `σ`. -/
structure GLFW (σ : Type) where
  glfwInit : σ → Int × σ
  glfwWindowHint : Int → Int → σ → σ
  glfwCreateWindow : Int → Int → String → Ptr → Ptr → σ → Ptr × σ
  glfwTerminate : σ → σ
  glfwMakeContextCurrent : Ptr → σ → σ
  glfwSwapInterval : Int → σ → σ
  /-- The width and the height of the framebuffer of a window. -/
  glfwGetFramebufferSize : Ptr → σ → (Int × Int) × σ
  glfwPollEvents : σ → σ
  glfwSwapBuffers : Ptr → σ → σ
  glfwGetMouseButton : Ptr → Int → σ → Int × σ
  glfwGetCursorPos : Ptr → σ → (Double × Double) × σ
  dlsym : String → σ → Ptr × σ

/-- One effect of the driver on its surroundings: a library call with its
arguments and its result, or the invocation of the frame callback. -/
inductive Call where
  | glfwInit (result : Int)
  | glfwWindowHint (hint value : Int)
  | glfwCreateWindow (width height : Int) (title : String) (monitor share result : Ptr)
  | glfwTerminate
  | glfwMakeContextCurrent (window : Ptr)
  | glfwSwapInterval (interval : Int)
  | glfwGetFramebufferSize (window : Ptr) (width : Int)
  | glfwPollEvents
  | glfwSwapBuffers (window : Ptr)
  | glfwGetMouseButton (window : Ptr) (button result : Int)
  | glfwGetCursorPos (window : Ptr) (xpos ypos : Double)
  | dlsym (name : String) (result : Ptr)
  | callback
deriving DecidableEq

/-- Everything outside the driver object: the state of the library, the `int`
objects that output pointers refer to, and the effects so far. -/
structure World (σ : Type) where
  lib : σ
  mem : Ptr → Int
  log : List Call

/-- How the target of a callback ends: it returns, or it throws an exception;
in both cases with the library state and the memory it leaves behind. -/
inductive Outcome (α : Type) where
  | returned (after : α)
  | threw (after : α)

/-- A frame callback `std::function<void()>`: empty, or holding a target, host
code acting on the library state and on memory.  The data members of the
driver are private, so the target does not reach them. -/
inductive Callback (σ : Type) where
  | empty
  | target (code : σ × (Ptr → Int) → Outcome (σ × (Ptr → Int)))

/-- A callback whose target always returns. -/
def Callback.ofFun {σ : Type} (h : σ × (Ptr → Int) → σ × (Ptr → Int)) : Callback σ :=
  Callback.target fun s => Outcome.returned (h s)

/-- How a call of a member function ends: it returns, or an exception leaves
it, `std::bad_function_call` from an empty callback or the exception thrown by
the target of the callback. -/
inductive Exit where
  | returned
  | bad_function_call
  | exception
deriving DecidableEq

/-- Why a call does not return. -/
inductive Fault where
  /-- The abort of a failed `assert`. -/
  | assertion
  /-- A store through the null pointer. -/
  | nullStore
deriving DecidableEq

section Calls

variable {σ : Type}

/-- The call `glfwInit()`. -/
def World.glfwInit (L : GLFW σ) (w : World σ) : Int × World σ :=
  let r := L.glfwInit w.lib
  (r.1, { w with lib := r.2, log := w.log ++ [Call.glfwInit r.1] })

/-- The call `glfwWindowHint(hint, value)`. -/
def World.glfwWindowHint (L : GLFW σ) (hint value : Int) (w : World σ) : World σ :=
  { w with lib := L.glfwWindowHint hint value w.lib,
           log := w.log ++ [Call.glfwWindowHint hint value] }

/-- The call `glfwCreateWindow(width, height, title, monitor, share)`. -/
def World.glfwCreateWindow (L : GLFW σ) (width height : Int) (title : String)
    (monitor share : Ptr) (w : World σ) : Ptr × World σ :=
  let r := L.glfwCreateWindow width height title monitor share w.lib
  (r.1, { w with lib := r.2,
                 log := w.log ++ [Call.glfwCreateWindow width height title monitor share r.1] })

/-- The call `glfwTerminate()`. -/
def World.glfwTerminate (L : GLFW σ) (w : World σ) : World σ :=
  { w with lib := L.glfwTerminate w.lib, log := w.log ++ [Call.glfwTerminate] }

/-- The call `glfwMakeContextCurrent(window)`. -/
def World.glfwMakeContextCurrent (L : GLFW σ) (window : Ptr) (w : World σ) : World σ :=
  { w with lib := L.glfwMakeContextCurrent window w.lib,
           log := w.log ++ [Call.glfwMakeContextCurrent window] }

/-- The call `glfwSwapInterval(interval)`. -/
def World.glfwSwapInterval (L : GLFW σ) (interval : Int) (w : World σ) : World σ :=
  { w with lib := L.glfwSwapInterval interval w.lib,
           log := w.log ++ [Call.glfwSwapInterval interval] }

/-- The call `glfwGetFramebufferSize(window, &width, nullptr)`: only the width
is asked for. -/
def World.glfwGetFramebufferSize (L : GLFW σ) (window : Ptr) (w : World σ) : Int × World σ :=
  let r := L.glfwGetFramebufferSize window w.lib
  (r.1.1, { w with lib := r.2, log := w.log ++ [Call.glfwGetFramebufferSize window r.1.1] })

/-- The call `glfwPollEvents()`. -/
def World.glfwPollEvents (L : GLFW σ) (w : World σ) : World σ :=
  { w with lib := L.glfwPollEvents w.lib, log := w.log ++ [Call.glfwPollEvents] }

/-- The call `glfwSwapBuffers(window)`. -/
def World.glfwSwapBuffers (L : GLFW σ) (window : Ptr) (w : World σ) : World σ :=
  { w with lib := L.glfwSwapBuffers window w.lib, log := w.log ++ [Call.glfwSwapBuffers window] }

/-- The call `glfwGetMouseButton(window, button)`. -/
def World.glfwGetMouseButton (L : GLFW σ) (window : Ptr) (button : Int) (w : World σ) :
    Int × World σ :=
  let r := L.glfwGetMouseButton window button w.lib
  (r.1, { w with lib := r.2, log := w.log ++ [Call.glfwGetMouseButton window button r.1] })

/-- The call `glfwGetCursorPos(window, &xpos, &ypos)`. -/
def World.glfwGetCursorPos (L : GLFW σ) (window : Ptr) (w : World σ) :
    (Double × Double) × World σ :=
  let r := L.glfwGetCursorPos window w.lib
  (r.1, { w with lib := r.2, log := w.log ++ [Call.glfwGetCursorPos window r.1.1 r.1.2] })

/-- The call `dlsym(RTLD_DEFAULT, name)`. -/
def World.dlsym (L : GLFW σ) (name : String) (w : World σ) : Ptr × World σ :=
  let r := L.dlsym name w.lib
  (r.1, { w with lib := r.2, log := w.log ++ [Call.dlsym name r.1] })

/-- The invocation `f()` of a frame callback: an empty `f` throws
`std::bad_function_call` and nothing is invoked; otherwise the target is
invoked, and returns or throws. -/
def World.invoke (f : Callback σ) (w : World σ) : Exit × World σ :=
  match f with
  | Callback.empty => (Exit.bad_function_call, w)
  | Callback.target code =>
    match code (w.lib, w.mem) with
    | Outcome.returned r =>
      (Exit.returned, { lib := r.1, mem := r.2, log := w.log ++ [Call.callback] })
    | Outcome.threw r =>
      (Exit.exception, { lib := r.1, mem := r.2, log := w.log ++ [Call.callback] })

/-- The assignment `*p = v` to an `int` object. -/
def World.store (p : Ptr) (v : Int) (w : World σ) : Except Fault (World σ) :=
  if p = nullptr then Except.error Fault.nullStore
  else Except.ok { w with mem := Function.update w.mem p v }

end Calls

/-! ## The driver (`glfwdriver.h`, `glfwdriver.cpp`) -/

/-- The constant `kWidth`. -/
def kWidth : Int := 640

/-- The constant `kHeight`. -/
def kHeight : Int := 480

/-- The data members of `class GLFWDriver`. -/
structure GLFWDriver where
  window_ : Ptr
  device_pixel_ratio_ : Double

namespace GLFWDriver

variable {σ : Type}

/-- The member function `bool GLFWDriver::Init()`. -/
def Init (L : GLFW σ) (self : GLFWDriver) (w : World σ) : Bool × GLFWDriver × World σ :=
  let r := w.glfwInit L
  if r.1 = 0 then (false, self, r.2)
  else
    let w := r.2.glfwWindowHint L GLFW_CLIENT_API GLFW_OPENGL_API
    let w := w.glfwWindowHint L GLFW_CONTEXT_VERSION_MAJOR 2
    let w := w.glfwWindowHint L GLFW_CONTEXT_VERSION_MINOR 1
    let c := w.glfwCreateWindow L kWidth kHeight "Ebiten test" nullptr nullptr
    let self := { self with window_ := c.1 }
    if self.window_ = nullptr then (false, self, c.2.glfwTerminate L)
    else
      let w := c.2.glfwMakeContextCurrent L self.window_
      let w := w.glfwSwapInterval L 1
      let s := w.glfwGetFramebufferSize L self.window_
      let framebuffer_width := s.1
      let self := { self with
        device_pixel_ratio_ := Double.div (Double.ofInt framebuffer_width) (Double.ofInt kWidth) }
      (true, self, s.2)

/-- The member function `void GLFWDriver::Update(std::function<void()> f)`. -/
def Update (L : GLFW σ) (self : GLFWDriver) (f : Callback σ) (w : World σ) :
    Exit × GLFWDriver × World σ :=
  let w := w.glfwPollEvents L
  let r := w.invoke f
  match r.1 with
  | Exit.returned =>
    let w := r.2.glfwSwapBuffers L self.window_
    (Exit.returned, self, w)
  | e =>
    -- the exception leaves `Update`: nothing after `f()` is executed
    (e, self, r.2)

/-- The member function `int GLFWDriver::GetScreenWidth()`. -/
def GetScreenWidth (self : GLFWDriver) (w : World σ) : Int × GLFWDriver × World σ :=
  (kWidth, self, w)

/-- The member function `int GLFWDriver::GetScreenHeight()`. -/
def GetScreenHeight (self : GLFWDriver) (w : World σ) : Int × GLFWDriver × World σ :=
  (kHeight, self, w)

/-- The member function `double GLFWDriver::GetDevicePixelRatio()`. -/
def GetDevicePixelRatio (self : GLFWDriver) (w : World σ) : Double × GLFWDriver × World σ :=
  (self.device_pixel_ratio_, self, w)

/-- The member function `void* GLFWDriver::GetOpenGLFunction(const char* name)`. -/
def GetOpenGLFunction (L : GLFW σ) (self : GLFWDriver) (name : String) (w : World σ) :
    Ptr × GLFWDriver × World σ :=
  let r := w.dlsym L name
  (r.1, self, r.2)

/-- The member function `int GLFWDriver::GetTouchCount()`. -/
def GetTouchCount (L : GLFW σ) (self : GLFWDriver) (w : World σ) : Int × GLFWDriver × World σ :=
  let r := w.glfwGetMouseButton L self.window_ GLFW_MOUSE_BUTTON_LEFT
  if r.1 ≠ GLFW_PRESS then (0, self, r.2)
  else (1, self, r.2)

/-- The member function
`void GLFWDriver::GetTouch(int idx, int* id, int* x, int* y)`. -/
def GetTouch (P : Platform) (L : GLFW σ) (self : GLFWDriver) (idx : Int) (id x y : Ptr)
    (w : World σ) : Except Fault (GLFWDriver × World σ) :=
  let _ := idx
  let r := w.glfwGetMouseButton L self.window_ GLFW_MOUSE_BUTTON_LEFT
  if r.1 ≠ GLFW_PRESS then
    -- Not reached!
    if P.ndebug then Except.ok (self, r.2) else Except.error Fault.assertion
  else do
    let w ← if id ≠ nullptr then r.2.store id 0 else pure r.2
    let c := w.glfwGetCursorPos L self.window_
    let xpos := c.1.1
    let ypos := c.1.2
    let w ← if x ≠ nullptr then c.2.store x (static_cast_int P xpos) else pure c.2
    let w ← if y ≠ nullptr then w.store y (static_cast_int P ypos) else pure w
    pure (self, w)

end GLFWDriver

/-! ## The answers of the library during `Init` -/

section Answers

variable {σ : Type}

/-- The library state in which `Init` creates the window: after a successful
`glfwInit` and the three window hints. -/
def hinted (L : GLFW σ) (s : σ) : σ :=
  L.glfwWindowHint GLFW_CONTEXT_VERSION_MINOR 1
    (L.glfwWindowHint GLFW_CONTEXT_VERSION_MAJOR 2
      (L.glfwWindowHint GLFW_CLIENT_API GLFW_OPENGL_API (L.glfwInit s).2))

/-- The answer of the library to the window creation of `Init`. -/
def created (L : GLFW σ) (s : σ) : Ptr × σ :=
  L.glfwCreateWindow kWidth kHeight "Ebiten test" nullptr nullptr (hinted L s)

/-- The answer of the library to the framebuffer query of `Init`. -/
def measured (L : GLFW σ) (s : σ) : (Int × Int) × σ :=
  L.glfwGetFramebufferSize (created L s).1
    (L.glfwSwapInterval 1 (L.glfwMakeContextCurrent (created L s).1 (created L s).2))

end Answers

/-! ## Sequences of calls by the host -/

/-- A call of a member function other than `Init`, with its arguments. -/
inductive Op (σ : Type) where
  | Update (f : Callback σ)
  | GetScreenWidth
  | GetScreenHeight
  | GetDevicePixelRatio
  | GetOpenGLFunction (name : String)
  | GetTouchCount
  | GetTouch (idx : Int) (id x y : Ptr)

/-- Whether a call is a call of `GetTouch`. -/
def Op.isGetTouch {σ : Type} : Op σ → Bool
  | Op.GetTouch _ _ _ _ => true
  | _ => false

section Runs

variable {σ : Type}

/-- The effect of one call on the driver object and the world; the value the
call returns is dropped, and so is the way an `Update` ends: an exception that
leaves `Update` reaches the host, which may catch it and go on to the next
call.  Only the abort of the process ends a sequence of calls. -/
def step (P : Platform) (L : GLFW σ) (op : Op σ) (st : GLFWDriver × World σ) :
    Except Fault (GLFWDriver × World σ) :=
  match op with
  | Op.Update f => Except.ok (st.1.Update L f st.2).2
  | Op.GetScreenWidth => Except.ok (st.1.GetScreenWidth st.2).2
  | Op.GetScreenHeight => Except.ok (st.1.GetScreenHeight st.2).2
  | Op.GetDevicePixelRatio => Except.ok (st.1.GetDevicePixelRatio st.2).2
  | Op.GetOpenGLFunction name => Except.ok (st.1.GetOpenGLFunction L name st.2).2
  | Op.GetTouchCount => Except.ok (st.1.GetTouchCount L st.2).2
  | Op.GetTouch idx id x y => st.1.GetTouch P L idx id x y st.2

/-- The calls of a sequence one after the other, up to the first that aborts
the process. -/
def run (P : Platform) (L : GLFW σ) :
    List (Op σ) → GLFWDriver × World σ → Except Fault (GLFWDriver × World σ)
  | [], st => Except.ok st
  | op :: ops, st =>
    match step P L op st with
    | Except.ok st' => run P L ops st'
    | Except.error e => Except.error e

/-- The states a sequence of calls passes through: the state before the first
call and the state after each call that ends, by a return or by an exception
that reaches the host. -/
def trail (P : Platform) (L : GLFW σ) :
    List (Op σ) → GLFWDriver × World σ → List (GLFWDriver × World σ)
  | [], st => [st]
  | op :: ops, st =>
    st :: (match step P L op st with
      | Except.ok st' => trail P L ops st'
      | Except.error _ => [])

/-- One `Update` per callback of a list, in order, up to the first that an
exception leaves (the host loop does not catch it). -/
def updates (L : GLFW σ) :
    List (Callback σ) → GLFWDriver × World σ → Exit × GLFWDriver × World σ
  | [], st => (Exit.returned, st)
  | f :: fs, st =>
    match st.1.Update L f st.2 with
    | (Exit.returned, st') => updates L fs st'
    | (e, st') => (e, st')

end Runs

/-! ## A simulated library, for concrete runs -/

/-- The state of a simulated library: the answers it gives. -/
structure Sim where
  initResult : Int
  window : Ptr
  framebuffer : Int × Int
  mouse : Int → Int
  cursor : Double × Double
  symbol : String → Ptr

/-- The simulated library: every function answers from the state and leaves it
unchanged. -/
def Sim.glfw : GLFW Sim where
  glfwInit s := (s.initResult, s)
  glfwWindowHint _ _ s := s
  glfwCreateWindow _ _ _ _ _ s := (s.window, s)
  glfwTerminate s := s
  glfwMakeContextCurrent _ s := s
  glfwSwapInterval _ s := s
  glfwGetFramebufferSize _ s := (s.framebuffer, s)
  glfwPollEvents s := s
  glfwSwapBuffers _ s := s
  glfwGetMouseButton _ button s := (s.mouse button, s)
  glfwGetCursorPos _ s := (s.cursor, s)
  dlsym name s := (s.symbol name, s)

/-- A desktop with a 960 pixel wide framebuffer, the left button held down
and the cursor at `(-1/2, 7/2)`. -/
def Sim.desktop : Sim where
  initResult := 1
  window := 77
  framebuffer := (960, 720)
  mouse := fun b => if b = GLFW_MOUSE_BUTTON_LEFT then GLFW_PRESS else 0
  cursor := (Double.finite (-1 / 2), Double.finite (7 / 2))
  symbol := fun _ => nullptr

/-- A world around the simulated desktop, with zeroed memory and no effects
yet. -/
def Sim.world (s : Sim) : World Sim where
  lib := s
  mem := fun _ => 0
  log := []

/-- A driver object before `Init`. -/
def GLFWDriver.fresh : GLFWDriver where
  window_ := nullptr
  device_pixel_ratio_ := Double.nan

/-- A debug build on x86-64. -/
def Platform.debug : Platform where
  ndebug := false
  invalidInt := fun _ => INT_MIN
  invalidInt_range := fun _ => ⟨le_refl _, (by decide : INT_MIN ≤ INT_MAX)⟩

/-- A simulated desktop with no mouse button held down. -/
def Sim.idle : Sim where
  initResult := 1
  window := 77
  framebuffer := (640, 480)
  mouse := fun _ => 0
  cursor := (Double.finite 10, Double.finite 20)
  symbol := fun _ => nullptr

/-- A laptop whose framebuffer is 1366 pixels wide. -/
def Sim.laptop : Sim where
  initResult := 1
  window := 77
  framebuffer := (1366, 768)
  mouse := fun _ => 0
  cursor := (Double.finite 0, Double.finite 0)
  symbol := fun _ => nullptr

/-- A callback whose target throws at once, leaving the state as it found
it. -/
def Callback.throwing {σ : Type} : Callback σ :=
  Callback.target fun s => Outcome.threw s

/-- A simulated library that starts but cannot open a window. -/
def Sim.noWindow : Sim where
  initResult := 1
  window := nullptr
  framebuffer := (0, 0)
  mouse := fun _ => 0
  cursor := (Double.finite 0, Double.finite 0)
  symbol := fun _ => nullptr

/-- A simulated desktop whose cursor is `2 ^ 31` units to the right, the left
button held down. -/
def Sim.farCursor : Sim where
  initResult := 1
  window := 77
  framebuffer := (640, 480)
  mouse := fun b => if b = GLFW_MOUSE_BUTTON_LEFT then GLFW_PRESS else 0
  cursor := (Double.finite 2147483648, Double.finite 0)
  symbol := fun _ => nullptr

/-- The driver object and the world after `Init` on the simulated desktop. -/
def Sim.ready : GLFWDriver × World Sim :=
  (GLFWDriver.fresh.Init Sim.glfw Sim.desktop.world).2

/-- The memory after a guarded store `if (p) *p = v;`. -/
def storeIf (p : Ptr) (v : Int) (m : Ptr → Int) : Ptr → Int :=
  if p = nullptr then m else Function.update m p v

/-! ## Theorems -/

section Theorems

variable {σ : Type}

open GLFWDriver

/-! ### Arithmetic of `double` -/

/-- The function `pow2` is the integer power of two. -/
theorem pow2_eq_zpow (e : Int) : pow2 e = (2 : ℚ) ^ e := by
  unfold pow2
  split_ifs with h
  · obtain ⟨n, rfl⟩ := Int.eq_ofNat_of_zero_le h
    simp
  · obtain ⟨n, hn⟩ := Int.eq_ofNat_of_zero_le (show 0 ≤ -e by omega)
    have : e = -(n : ℤ) := by omega
    subst this
    simp

/-- The absolute value of a rational from its numerator and denominator. -/
theorem abs_eq_natAbs_div_den (a : ℚ) : |a| = (a.num.natAbs : ℚ) / (a.den : ℚ) := by
  conv_lhs => rw [← Rat.num_div_den a]
  rw [abs_div, Nat.abs_cast, Nat.cast_natAbs, Int.cast_abs]

/-- The binary exponent brackets the absolute value. -/
theorem floorLog2_spec (a : ℚ) (ha : a ≠ 0) :
    (2 : ℚ) ^ (floorLog2 a) ≤ |a| ∧ |a| < (2 : ℚ) ^ (floorLog2 a + 1) := by
  have hn0 : a.num.natAbs ≠ 0 := by
    simpa [Int.natAbs_eq_zero] using ha
  have hd0 : a.den ≠ 0 := a.den_nz
  have hdpos : (0 : ℚ) < (a.den : ℚ) := by exact_mod_cast Nat.pos_of_ne_zero hd0
  have h1 : ((2 : ℚ) ^ (Nat.log2 a.num.natAbs)) ≤ (a.num.natAbs : ℚ) := by
    exact_mod_cast Nat.log2_self_le hn0
  have h2 : (a.num.natAbs : ℚ) < (2 : ℚ) ^ (Nat.log2 a.num.natAbs + 1) := by
    exact_mod_cast (Nat.lt_log2_self : a.num.natAbs < 2 ^ (Nat.log2 a.num.natAbs + 1))
  have h3 : ((2 : ℚ) ^ (Nat.log2 a.den)) ≤ (a.den : ℚ) := by
    exact_mod_cast Nat.log2_self_le hd0
  have h4 : (a.den : ℚ) < (2 : ℚ) ^ (Nat.log2 a.den + 1) := by
    exact_mod_cast (Nat.lt_log2_self : a.den < 2 ^ (Nat.log2 a.den + 1))
  have habs := abs_eq_natAbs_div_den a
  set n : ℚ := (a.num.natAbs : ℚ) with hn
  set d : ℚ := (a.den : ℚ) with hd
  set ln := Nat.log2 a.num.natAbs with hln
  set ld := Nat.log2 a.den with hld
  have hup : |a| < (2 : ℚ) ^ ((ln : ℤ) - (ld : ℤ) + 1) := by
    rw [habs, div_lt_iff₀ hdpos]
    have he : (2 : ℚ) ^ ((ln : ℤ) - (ld : ℤ) + 1) = (2 : ℚ) ^ (ln + 1) / (2 : ℚ) ^ ld := by
      rw [show ((ln : ℤ) - (ld : ℤ) + 1) = ((ln + 1 : ℕ) : ℤ) - (ld : ℤ) by push_cast; ring]
      rw [zpow_sub₀ (by norm_num : (2 : ℚ) ≠ 0), zpow_natCast, zpow_natCast]
    rw [he]
    have hpos : (0 : ℚ) < (2 : ℚ) ^ ld := by positivity
    calc n < (2 : ℚ) ^ (ln + 1) := h2
      _ = (2 : ℚ) ^ (ln + 1) / (2 : ℚ) ^ ld * (2 : ℚ) ^ ld := by field_simp
      _ ≤ (2 : ℚ) ^ (ln + 1) / (2 : ℚ) ^ ld * d := by
        apply mul_le_mul_of_nonneg_left h3
        positivity
  have hlow : (2 : ℚ) ^ ((ln : ℤ) - (ld : ℤ) - 1) ≤ |a| := by
    rw [habs, le_div_iff₀ hdpos]
    have he : (2 : ℚ) ^ ((ln : ℤ) - (ld : ℤ) - 1) = (2 : ℚ) ^ ln / (2 : ℚ) ^ (ld + 1) := by
      rw [show ((ln : ℤ) - (ld : ℤ) - 1) = ((ln : ℕ) : ℤ) - ((ld + 1 : ℕ) : ℤ) by push_cast; ring]
      rw [zpow_sub₀ (by norm_num : (2 : ℚ) ≠ 0), zpow_natCast, zpow_natCast]
    rw [he]
    have hpos : (0 : ℚ) < (2 : ℚ) ^ (ld + 1) := by positivity
    calc (2 : ℚ) ^ ln / (2 : ℚ) ^ (ld + 1) * d
        ≤ (2 : ℚ) ^ ln / (2 : ℚ) ^ (ld + 1) * (2 : ℚ) ^ (ld + 1) := by
          apply mul_le_mul_of_nonneg_left h4.le
          positivity
      _ = (2 : ℚ) ^ ln := by field_simp
      _ ≤ n := h1
  unfold floorLog2
  simp only [pow2_eq_zpow]
  split_ifs with h
  · exact ⟨h, hup⟩
  · refine ⟨hlow, ?_⟩
    rw [show ((ln : ℤ) - (ld : ℤ) - 1 + 1) = (ln : ℤ) - (ld : ℤ) by ring]
    exact not_le.mp h

/-- Rounding to an integer moves a value by at most one half. -/
theorem roundHalfEven_spec (m : ℚ) : |(roundHalfEven m : ℚ) - m| ≤ 1 / 2 := by
  have h1 := Int.floor_le m
  have h2 := Int.lt_floor_add_one m
  unfold roundHalfEven
  simp only
  split_ifs with ha hb hc
  · rw [abs_le]; constructor <;> linarith
  · rw [abs_le]; push_cast; constructor <;> linarith
  · rw [abs_le]; constructor <;> linarith
  · rw [abs_le]; push_cast; constructor <;> linarith

/-- Rounding an integer returns it. -/
theorem roundHalfEven_intCast (k : ℤ) : roundHalfEven (k : ℚ) = k := by
  unfold roundHalfEven
  simp

/-- A rational from its sign and its absolute value. -/
theorem signed_abs (q : ℚ) : (if q < 0 then -|q| else |q|) = q := by
  split_ifs with h
  · rw [abs_of_neg h, neg_neg]
  · exact abs_of_nonneg (not_lt.mp h)

/-- A value `c * 2 ^ j` with a 53 bit significand `c`, an exponent `j` not below
`-1074` and absolute value below `2 ^ 1024` is a binary64 number: rounding
returns it. -/
theorem round64_exact (q : ℚ) (c j : ℤ) (hq : q = (c : ℚ) * (2 : ℚ) ^ j)
    (hc : |c| < 2 ^ 53) (hj : -1074 ≤ j) (hmax : |q| < (2 : ℚ) ^ (1024 : ℤ)) :
    round64 q = Double.finite q := by
  unfold round64
  by_cases h0 : q = 0
  · simp [h0]
  rw [if_neg h0]
  simp only [pow2_eq_zpow]
  obtain ⟨hlo, -⟩ := floorLog2_spec q h0
  have h2 : (1 : ℚ) < 2 := by norm_num
  have habs : |q| = (|c| : ℤ) * (2 : ℚ) ^ j := by
    rw [hq, abs_mul, abs_of_pos (zpow_pos (by norm_num : (0 : ℚ) < 2) j), Int.cast_abs]
  have hclt : ((|c| : ℤ) : ℚ) < (2 : ℚ) ^ (53 : ℤ) := by
    have e53 : (2 : ℚ) ^ (53 : ℤ) = ((2 ^ 53 : ℤ) : ℚ) := by norm_num
    rw [e53]
    exact_mod_cast hc
  have he : floorLog2 q ≤ j + 52 := by
    have hlt : (2 : ℚ) ^ (floorLog2 q) < (2 : ℚ) ^ (53 + j) := by
      calc (2 : ℚ) ^ (floorLog2 q) ≤ |q| := hlo
        _ = (|c| : ℤ) * (2 : ℚ) ^ j := habs
        _ < (2 : ℚ) ^ (53 : ℤ) * (2 : ℚ) ^ j :=
          mul_lt_mul_of_pos_right hclt (zpow_pos (by norm_num) j)
        _ = (2 : ℚ) ^ (53 + j) := by rw [zpow_add₀ (by norm_num : (2 : ℚ) ≠ 0)]
    have := (zpow_lt_zpow_iff_right₀ h2).mp hlt
    omega
  set e := max (floorLog2 q) (-1022) with hedef
  have hej : 0 ≤ j - e + 52 := by
    rcases max_cases (floorLog2 q) (-1022) with ⟨h, -⟩ | ⟨h, -⟩ <;> rw [hedef, h] <;> omega
  obtain ⟨n, hn⟩ := Int.eq_ofNat_of_zero_le hej
  have hu : (0 : ℚ) < (2 : ℚ) ^ (e - 52) := zpow_pos (by norm_num) _
  have hm : |q| / (2 : ℚ) ^ (e - 52) = ((|c| * 2 ^ n : ℤ) : ℚ) := by
    rw [habs, div_eq_iff hu.ne']
    push_cast
    rw [mul_assoc, ← zpow_natCast, ← zpow_add₀ (by norm_num : (2 : ℚ) ≠ 0)]
    congr 2
    omega
  rw [hm, roundHalfEven_intCast, ← hm, div_mul_cancel₀ _ hu.ne', if_neg (not_le.mpr hmax),
    signed_abs]

/-- In the normal range rounding to binary64 has a relative error of at most
`2 ^ (-53)`. -/
theorem round64_near (q : ℚ) (hmin : (2 : ℚ) ^ (-1022 : ℤ) ≤ |q|)
    (hmax : |q| ≤ (2 : ℚ) ^ (1023 : ℤ)) :
    ∃ v, round64 q = Double.finite v ∧ |v - q| ≤ |q| / 2 ^ 53 := by
  have h2 : (1 : ℚ) < 2 := by norm_num
  have h0 : q ≠ 0 := by
    intro h
    rw [h, abs_zero] at hmin
    exact absurd hmin (not_le.mpr (zpow_pos (by norm_num) _))
  obtain ⟨hlo, hhi⟩ := floorLog2_spec q h0
  have he : -1022 ≤ floorLog2 q := by
    have := (zpow_lt_zpow_iff_right₀ h2).mp (lt_of_le_of_lt hmin hhi)
    omega
  unfold round64
  rw [if_neg h0]
  simp only [pow2_eq_zpow, max_eq_left he]
  set e := floorLog2 q with hedef
  set u := (2 : ℚ) ^ (e - 52) with hudef
  have hu : 0 < u := zpow_pos (by norm_num) _
  set n := roundHalfEven (|q| / u) with hndef
  have hn := roundHalfEven_spec (|q| / u)
  rw [← hndef] at hn
  have hr : abs ((n : ℚ) * u - |q|) ≤ u / 2 := by
    have : (n : ℚ) * u - |q| = ((n : ℚ) - |q| / u) * u := by field_simp
    rw [this, abs_mul, abs_of_pos hu]
    calc abs ((n : ℚ) - |q| / u) * u ≤ 1 / 2 * u := mul_le_mul_of_nonneg_right hn hu.le
      _ = u / 2 := by ring
  have hu2 : u / 2 ≤ |q| / 2 ^ 53 := by
    have : u = (2 : ℚ) ^ e / 2 ^ 52 := by
      rw [hudef, zpow_sub₀ (by norm_num : (2 : ℚ) ≠ 0)]
      norm_num
    rw [this]
    calc (2 : ℚ) ^ e / 2 ^ 52 / 2 = (2 : ℚ) ^ e / 2 ^ 53 := by ring
      _ ≤ |q| / 2 ^ 53 := by
        apply div_le_div_of_nonneg_right hlo
        positivity
  have hr' := abs_le.mp hr
  have hlt : ¬ (2 : ℚ) ^ (1024 : ℤ) ≤ (n : ℚ) * u := by
    rw [not_le]
    have h1024 : (2 : ℚ) ^ (1024 : ℤ) = 2 * (2 : ℚ) ^ (1023 : ℤ) := by
      rw [show (1024 : ℤ) = 1 + 1023 by norm_num, zpow_add₀ (by norm_num : (2 : ℚ) ≠ 0)]
      norm_num
    have hq53 : |q| / 2 ^ 53 < |q| := by
      apply div_lt_self (abs_pos.mpr h0)
      norm_num
    rw [h1024]
    linarith
  rw [if_neg hlt]
  refine ⟨_, rfl, ?_⟩
  split_ifs with hneg
  · rw [show -((n : ℚ) * u) - q = -((n : ℚ) * u - |q|) by rw [abs_of_neg hneg]; ring, abs_neg]
    exact hr.trans hu2
  · rw [show (n : ℚ) * u - q = (n : ℚ) * u - |q| by rw [abs_of_nonneg (not_lt.mp hneg)]]
    exact hr.trans hu2

/-- The model agrees with IEEE 754 on a familiar value: the binary64 number
nearest to one tenth is `0x1999999999999A / 2 ^ 56`. -/
theorem round64_one_tenth : round64 (1 / 10) = Double.finite (7205759403792794 / 2 ^ 56) := by
  decide!

/-- The conversion of an integer of at most 53 bits to `double` is exact. -/
theorem Double.ofInt_exact (i : ℤ) (h : |i| < 2 ^ 53) :
    Double.ofInt i = Double.finite (i : ℚ) := by
  have hlt : |(i : ℚ)| < (2 : ℚ) ^ (1024 : ℤ) := by
    have h1 : |(i : ℚ)| < (2 : ℚ) ^ (53 : ℤ) := by
      have e53 : (2 : ℚ) ^ (53 : ℤ) = ((2 ^ 53 : ℤ) : ℚ) := by norm_num
      rw [e53, ← Int.cast_abs]
      exact_mod_cast h
    exact h1.trans_le (zpow_le_zpow_right₀ (by norm_num) (by norm_num))
  exact round64_exact (i : ℚ) i 0 (by simp) h (by norm_num) hlt

/-- The `double` quotient of an `int` by 640: the rational quotient rounded to
binary64, with a relative error of at most `2 ^ (-53)`, and no error at all
when the `int` is a multiple of 5. -/
theorem quotient_by_kWidth (fw : ℤ) (hfw : INT_MIN ≤ fw ∧ fw ≤ INT_MAX) :
    Double.div (Double.ofInt fw) (Double.ofInt kWidth) = round64 ((fw : ℚ) / 640) ∧
    ∃ v : ℚ, Double.div (Double.ofInt fw) (Double.ofInt kWidth) = Double.finite v ∧
      |v - (fw : ℚ) / 640| ≤ |(fw : ℚ) / 640| / 2 ^ 53 ∧
      (5 ∣ fw → v = (fw : ℚ) / 640) := by
  obtain ⟨hlo, hhi⟩ := hfw
  simp only [INT_MIN, INT_MAX] at hlo hhi
  have habs : |fw| < 2 ^ 53 := by
    rw [abs_lt]
    constructor <;> norm_num <;> omega
  have hk : Double.ofInt kWidth = Double.finite 640 := by
    rw [kWidth, Double.ofInt_exact 640 (by norm_num)]
    norm_num
  rw [Double.ofInt_exact fw habs, hk]
  have hdiv : Double.div (Double.finite (fw : ℚ)) (Double.finite 640) =
      round64 ((fw : ℚ) / 640) := by
    simp [Double.div]
  rw [hdiv]
  refine ⟨rfl, ?_⟩
  have h31 : |(fw : ℚ)| ≤ 2147483648 := by
    rw [abs_le]
    constructor
    · have : ((-2147483648 : ℤ) : ℚ) ≤ (fw : ℚ) := by exact_mod_cast hlo
      simpa using this
    · have : (fw : ℚ) ≤ ((2147483647 : ℤ) : ℚ) := by exact_mod_cast hhi
      have h' : ((2147483647 : ℤ) : ℚ) ≤ 2147483648 := by norm_num
      exact this.trans h'
  have hq : |(fw : ℚ) / 640| = |(fw : ℚ)| / 640 := by
    rw [abs_div, abs_of_pos (by norm_num : (0 : ℚ) < 640)]
  by_cases h5 : 5 ∣ fw
  · obtain ⟨c, hc⟩ := h5
    have hcabs : |c| < 2 ^ 53 := by
      rw [abs_lt] at habs ⊢
      constructor <;> omega
    have hrep : (fw : ℚ) / 640 = (c : ℚ) * (2 : ℚ) ^ (-7 : ℤ) := by
      rw [hc]
      push_cast
      rw [zpow_neg]
      norm_num
      ring
    have hmax : |(fw : ℚ) / 640| < (2 : ℚ) ^ (1024 : ℤ) := by
      rw [hq]
      have h1 : |(fw : ℚ)| / 640 ≤ (2 : ℚ) ^ (31 : ℤ) := by
        have : (2 : ℚ) ^ (31 : ℤ) = 2147483648 := by norm_num
        rw [this]
        apply div_le_of_le_mul₀ (by norm_num) (by norm_num)
        linarith [abs_nonneg (fw : ℚ)]
      exact h1.trans_lt (zpow_lt_zpow_right₀ (by norm_num) (by norm_num))
    refine ⟨(fw : ℚ) / 640, round64_exact _ c (-7) hrep hcabs (by norm_num) hmax, ?_, fun _ => rfl⟩
    rw [sub_self, abs_zero]
    positivity
  · have hne : fw ≠ 0 := by
      intro h
      exact h5 (h ▸ dvd_zero 5)
    have h1 : (1 : ℚ) ≤ |(fw : ℚ)| := by
      rw [← Int.cast_abs]
      have : (1 : ℤ) ≤ |fw| := Int.one_le_abs hne
      exact_mod_cast this
    have hmin : (2 : ℚ) ^ (-1022 : ℤ) ≤ |(fw : ℚ) / 640| := by
      rw [hq]
      have ha : (2 : ℚ) ^ (-1022 : ℤ) ≤ (2 : ℚ) ^ (-10 : ℤ) :=
        zpow_le_zpow_right₀ (by norm_num) (by norm_num)
      have hb : (2 : ℚ) ^ (-10 : ℤ) = 1 / 1024 := by
        rw [zpow_neg]
        norm_num
      have hc : (1 : ℚ) / 1024 ≤ |(fw : ℚ)| / 640 := by
        rw [div_le_div_iff₀ (by norm_num) (by norm_num)]
        linarith
      exact ha.trans (hb ▸ hc)
    have hmax : |(fw : ℚ) / 640| ≤ (2 : ℚ) ^ (1023 : ℤ) := by
      rw [hq]
      have h2 : |(fw : ℚ)| / 640 ≤ (2 : ℚ) ^ (31 : ℤ) := by
        have : (2 : ℚ) ^ (31 : ℤ) = 2147483648 := by norm_num
        rw [this]
        apply div_le_of_le_mul₀ (by norm_num) (by norm_num)
        linarith [abs_nonneg (fw : ℚ)]
      exact h2.trans (zpow_le_zpow_right₀ (by norm_num) (by norm_num))
    obtain ⟨v, hv, hverr⟩ := round64_near _ hmin hmax
    exact ⟨v, hv, hverr, fun h => absurd h h5⟩

/-! ### The driver -/

/-- `Update` with a callback whose target returns: poll, callback, swap. -/
theorem Update_of_returned (L : GLFW σ) (self : GLFWDriver)
    (code : σ × (Ptr → Int) → Outcome (σ × (Ptr → Int))) (w : World σ) (r : σ × (Ptr → Int))
    (h : code (L.glfwPollEvents w.lib, w.mem) = Outcome.returned r) :
    self.Update L (Callback.target code) w =
      (Exit.returned, self,
       { lib := L.glfwSwapBuffers self.window_ r.1, mem := r.2,
         log := w.log ++
           [Call.glfwPollEvents, Call.callback, Call.glfwSwapBuffers self.window_] }) := by
  simp [Update, World.glfwPollEvents, World.invoke, World.glfwSwapBuffers, h]

/-- `Update` with a callback whose target throws: poll, callback, and the
exception leaves before the swap. -/
theorem Update_of_threw (L : GLFW σ) (self : GLFWDriver)
    (code : σ × (Ptr → Int) → Outcome (σ × (Ptr → Int))) (w : World σ) (r : σ × (Ptr → Int))
    (h : code (L.glfwPollEvents w.lib, w.mem) = Outcome.threw r) :
    self.Update L (Callback.target code) w =
      (Exit.exception, self,
       { lib := r.1, mem := r.2, log := w.log ++ [Call.glfwPollEvents, Call.callback] }) := by
  simp [Update, World.glfwPollEvents, World.invoke, h]

/-- `Update` with an empty callback: poll, and `std::bad_function_call` leaves
before anything is invoked. -/
theorem Update_of_empty (L : GLFW σ) (self : GLFWDriver) (w : World σ) :
    self.Update L Callback.empty w =
      (Exit.bad_function_call, self,
       { lib := L.glfwPollEvents w.lib, mem := w.mem,
         log := w.log ++ [Call.glfwPollEvents] }) := by
  simp [Update, World.glfwPollEvents, World.invoke]

/-- A list of updates whose callbacks return keeps the driver object, ends by
a return and logs one frame of effects, poll, callback, swap, per update. -/
theorem updates_log (L : GLFW σ) (hs : List (σ × (Ptr → Int) → σ × (Ptr → Int)))
    (st : GLFWDriver × World σ) :
    (updates L (hs.map Callback.ofFun) st).1 = Exit.returned ∧
    (updates L (hs.map Callback.ofFun) st).2.1 = st.1 ∧
    (updates L (hs.map Callback.ofFun) st).2.2.log = st.2.log ++
      (List.replicate hs.length
        [Call.glfwPollEvents, Call.callback, Call.glfwSwapBuffers st.1.window_]).flatten := by
  induction hs generalizing st with
  | nil => simp [updates]
  | cons h hs ih =>
    have hu := Update_of_returned L st.1 (fun s => Outcome.returned (h s)) st.2 _ rfl
    simp only [List.map_cons, updates, Callback.ofFun] at ih ⊢
    rw [hu]
    obtain ⟨h0, h1, h2⟩ := ih (st.1, _)
    refine ⟨h0, h1, ?_⟩
    rw [h2]
    simp [List.replicate_succ]

/-- The number of callback entries in `n` frames of effects. -/
theorem count_callback_frames (win : Ptr) (n : Nat) :
    (List.replicate n
      [Call.glfwPollEvents, Call.callback, Call.glfwSwapBuffers win]).flatten.count
        Call.callback = n := by
  induction n with
  | zero => simp
  | succ n ih =>
    rw [List.replicate_succ, List.flatten_cons, List.count_append, ih]
    simp [List.count_cons]
    omega

/-- C1 (as amended): `Update(f)` with a callback `f` that holds a target which
returns polls the events, then invokes `f` once, then swaps the buffers of the
stored window, and does nothing else; so a sequence of `n` updates with
callbacks that return logs `n` times the triple poll, callback, swap, and the
callback is invoked `n` times.  When the target throws, `Update` has polled
and invoked it once and the exception leaves before the swap; when `f` is
empty, `Update` has polled and `std::bad_function_call` leaves it, nothing
invoked and no swap. -/
theorem C1_Update_poll_callback_swap (L : GLFW σ) (self : GLFWDriver) (w : World σ) :
    (∀ code r, code (L.glfwPollEvents w.lib, w.mem) = Outcome.returned r →
      self.Update L (Callback.target code) w =
        (Exit.returned, self,
         { lib := L.glfwSwapBuffers self.window_ r.1, mem := r.2,
           log := w.log ++
             [Call.glfwPollEvents, Call.callback, Call.glfwSwapBuffers self.window_] })) ∧
    (∀ hs : List (σ × (Ptr → Int) → σ × (Ptr → Int)),
      (updates L (hs.map Callback.ofFun) (self, w)).1 = Exit.returned ∧
      (updates L (hs.map Callback.ofFun) (self, w)).2.2.log = w.log ++
        (List.replicate hs.length
          [Call.glfwPollEvents, Call.callback, Call.glfwSwapBuffers self.window_]).flatten ∧
      (updates L (hs.map Callback.ofFun) (self, w)).2.2.log.count Call.callback =
        w.log.count Call.callback + hs.length) ∧
    (∀ code r, code (L.glfwPollEvents w.lib, w.mem) = Outcome.threw r →
      self.Update L (Callback.target code) w =
        (Exit.exception, self,
         { lib := r.1, mem := r.2,
           log := w.log ++ [Call.glfwPollEvents, Call.callback] })) ∧
    self.Update L Callback.empty w =
      (Exit.bad_function_call, self,
       { lib := L.glfwPollEvents w.lib, mem := w.mem,
         log := w.log ++ [Call.glfwPollEvents] }) := by
  refine ⟨fun code r h => Update_of_returned L self code w r h, ?_,
    fun code r h => Update_of_threw L self code w r h, Update_of_empty L self w⟩
  intro hs
  obtain ⟨h0, -, h⟩ := updates_log L hs (self, w)
  refine ⟨h0, h, ?_⟩
  rw [h, List.count_append, count_callback_frames]

/-- C1 (as stated) fails: on the driver that `Init` has set up (window 77),
with a callback that throws, `Update` polls the events and invokes the
callback, and the exception leaves it with no buffer swap; with an empty
callback it polls the events and `std::bad_function_call` leaves it with
nothing invoked and no buffer swap. -/
theorem C1_throwing_callback_no_swap :
    Sim.ready.1.window_ = 77 ∧
    (Sim.ready.1.Update Sim.glfw Callback.throwing Sim.ready.2).1 = Exit.exception ∧
    (Sim.ready.1.Update Sim.glfw Callback.throwing Sim.ready.2).2.2.log =
      Sim.ready.2.log ++ [Call.glfwPollEvents, Call.callback] ∧
    (Sim.ready.1.Update Sim.glfw Callback.empty Sim.ready.2).1 = Exit.bad_function_call ∧
    (Sim.ready.1.Update Sim.glfw Callback.empty Sim.ready.2).2.2.log =
      Sim.ready.2.log ++ [Call.glfwPollEvents] := by
  refine ⟨rfl, rfl, rfl, rfl, rfl⟩

/-- `Init` when `glfwInit` fails. -/
theorem Init_of_init_failed (L : GLFW σ) (self : GLFWDriver) (w : World σ)
    (h : (L.glfwInit w.lib).1 = 0) :
    self.Init L w =
      (false, self,
       { lib := (L.glfwInit w.lib).2, mem := w.mem, log := w.log ++ [Call.glfwInit 0] }) := by
  simp [Init, World.glfwInit, h]

/-- `Init` when `glfwInit` succeeds and `glfwCreateWindow` fails. -/
theorem Init_of_create_failed (L : GLFW σ) (self : GLFWDriver) (w : World σ)
    (h : (L.glfwInit w.lib).1 ≠ 0) (hc : (created L w.lib).1 = nullptr) :
    self.Init L w =
      (false, { window_ := nullptr, device_pixel_ratio_ := self.device_pixel_ratio_ },
       { lib := L.glfwTerminate (created L w.lib).2, mem := w.mem,
         log := w.log ++
           [Call.glfwInit (L.glfwInit w.lib).1,
            Call.glfwWindowHint GLFW_CLIENT_API GLFW_OPENGL_API,
            Call.glfwWindowHint GLFW_CONTEXT_VERSION_MAJOR 2,
            Call.glfwWindowHint GLFW_CONTEXT_VERSION_MINOR 1,
            Call.glfwCreateWindow 640 480 "Ebiten test" nullptr nullptr nullptr,
            Call.glfwTerminate] }) := by
  simp only [created, hinted, kWidth, kHeight] at hc ⊢
  simp [Init, World.glfwInit, World.glfwWindowHint, World.glfwCreateWindow,
    World.glfwTerminate, h, hc, kWidth, kHeight]

/-- `Init` when `glfwInit` and `glfwCreateWindow` succeed. -/
theorem Init_of_created (L : GLFW σ) (self : GLFWDriver) (w : World σ)
    (h : (L.glfwInit w.lib).1 ≠ 0) (hc : (created L w.lib).1 ≠ nullptr) :
    self.Init L w =
      (true,
       { window_ := (created L w.lib).1,
         device_pixel_ratio_ :=
           Double.div (Double.ofInt (measured L w.lib).1.1) (Double.ofInt kWidth) },
       { lib := (measured L w.lib).2, mem := w.mem,
         log := w.log ++
           [Call.glfwInit (L.glfwInit w.lib).1,
            Call.glfwWindowHint GLFW_CLIENT_API GLFW_OPENGL_API,
            Call.glfwWindowHint GLFW_CONTEXT_VERSION_MAJOR 2,
            Call.glfwWindowHint GLFW_CONTEXT_VERSION_MINOR 1,
            Call.glfwCreateWindow 640 480 "Ebiten test" nullptr nullptr (created L w.lib).1,
            Call.glfwMakeContextCurrent (created L w.lib).1,
            Call.glfwSwapInterval 1,
            Call.glfwGetFramebufferSize (created L w.lib).1 (measured L w.lib).1.1] }) := by
  simp only [measured, created, hinted, kWidth, kHeight] at hc ⊢
  simp [Init, World.glfwInit, World.glfwWindowHint, World.glfwCreateWindow,
    World.glfwMakeContextCurrent, World.glfwSwapInterval, World.glfwGetFramebufferSize,
    h, hc, kWidth, kHeight]

/-- C2: `Init` returns true exactly when `glfwInit` succeeds and the window
creation that follows it returns a window; and when it returns true its
effects are, in this order: `glfwInit`, the hints client API OpenGL, context
version major 2 and minor 1, the creation of one window of 640 by 480, making
the context of that window current, swap interval 1, and the query of the
framebuffer size of that window. -/
theorem C2_Init_true_iff_and_effects (L : GLFW σ) (self : GLFWDriver) (w : World σ) :
    ((self.Init L w).1 = true ↔
      (L.glfwInit w.lib).1 ≠ 0 ∧ (created L w.lib).1 ≠ nullptr) ∧
    ((self.Init L w).1 = true →
      (self.Init L w).2.2.log = w.log ++
        [Call.glfwInit (L.glfwInit w.lib).1,
         Call.glfwWindowHint GLFW_CLIENT_API GLFW_OPENGL_API,
         Call.glfwWindowHint GLFW_CONTEXT_VERSION_MAJOR 2,
         Call.glfwWindowHint GLFW_CONTEXT_VERSION_MINOR 1,
         Call.glfwCreateWindow 640 480 "Ebiten test" nullptr nullptr (self.Init L w).2.1.window_,
         Call.glfwMakeContextCurrent (self.Init L w).2.1.window_,
         Call.glfwSwapInterval 1,
         Call.glfwGetFramebufferSize (self.Init L w).2.1.window_ (measured L w.lib).1.1] ∧
      (self.Init L w).2.1.window_ = (created L w.lib).1) := by
  by_cases h : (L.glfwInit w.lib).1 = 0
  · simp [Init_of_init_failed L self w h, h]
  · by_cases hc : (created L w.lib).1 = nullptr
    · simp [Init_of_create_failed L self w h hc, hc]
    · simp [Init_of_created L self w h hc, h, hc]

/-- C3: when `Init` returns false, either `glfwInit` failed and it is the only
call made, or `glfwInit` succeeded, the window creation returned null and the
last call made is `glfwTerminate`; in both cases no context is made current,
no swap interval is set, no framebuffer is measured and `device_pixel_ratio_`
keeps its value. -/
theorem C3_Init_false_releases (L : GLFW σ) (self : GLFWDriver) (w : World σ)
    (hfalse : (self.Init L w).1 = false) :
    (((L.glfwInit w.lib).1 = 0 ∧
        (self.Init L w).2.2.log = w.log ++ [Call.glfwInit 0] ∧
        (self.Init L w).2.2.lib = (L.glfwInit w.lib).2 ∧
        (self.Init L w).2.1 = self) ∨
      ((L.glfwInit w.lib).1 ≠ 0 ∧ (created L w.lib).1 = nullptr ∧
        (self.Init L w).2.2.log = w.log ++
          [Call.glfwInit (L.glfwInit w.lib).1,
           Call.glfwWindowHint GLFW_CLIENT_API GLFW_OPENGL_API,
           Call.glfwWindowHint GLFW_CONTEXT_VERSION_MAJOR 2,
           Call.glfwWindowHint GLFW_CONTEXT_VERSION_MINOR 1,
           Call.glfwCreateWindow 640 480 "Ebiten test" nullptr nullptr nullptr,
           Call.glfwTerminate] ∧
        (self.Init L w).2.2.lib = L.glfwTerminate (created L w.lib).2)) ∧
    (∃ effects, (self.Init L w).2.2.log = w.log ++ effects ∧
      (∀ p, Call.glfwMakeContextCurrent p ∉ effects) ∧
      (∀ n, Call.glfwSwapInterval n ∉ effects) ∧
      (∀ p n, Call.glfwGetFramebufferSize p n ∉ effects)) ∧
    (self.Init L w).2.1.device_pixel_ratio_ = self.device_pixel_ratio_ ∧
    (self.Init L w).2.2.mem = w.mem := by
  by_cases h : (L.glfwInit w.lib).1 = 0
  · rw [Init_of_init_failed L self w h]
    simp [h]
  · by_cases hc : (created L w.lib).1 = nullptr
    · rw [Init_of_create_failed L self w h hc]
      simp [h, hc]
    · rw [Init_of_created L self w h hc] at hfalse
      simp at hfalse

/-- C6: `GetTouchCount` asks the library for the state of the left mouse
button of the stored window, and for nothing else; it returns 1 when the
answer is `GLFW_PRESS` and 0 otherwise, it leaves the driver object and the
memory as they are, and two runs in which the left button has the same state
return the same count, whatever the library and its other buttons do. -/
theorem C6_GetTouchCount_left_button (L : GLFW σ) (self : GLFWDriver) (w : World σ) :
    (self.GetTouchCount L w).1 =
      (if (L.glfwGetMouseButton self.window_ GLFW_MOUSE_BUTTON_LEFT w.lib).1 = GLFW_PRESS
        then 1 else 0) ∧
    ((self.GetTouchCount L w).1 = 0 ∨ (self.GetTouchCount L w).1 = 1) ∧
    (self.GetTouchCount L w).2.1 = self ∧
    (self.GetTouchCount L w).2.2.mem = w.mem ∧
    (self.GetTouchCount L w).2.2.log = w.log ++
      [Call.glfwGetMouseButton self.window_ GLFW_MOUSE_BUTTON_LEFT
        (L.glfwGetMouseButton self.window_ GLFW_MOUSE_BUTTON_LEFT w.lib).1] ∧
    ∀ (τ : Type) (L' : GLFW τ) (self' : GLFWDriver) (w' : World τ),
      ((L'.glfwGetMouseButton self'.window_ GLFW_MOUSE_BUTTON_LEFT w'.lib).1 = GLFW_PRESS ↔
        (L.glfwGetMouseButton self.window_ GLFW_MOUSE_BUTTON_LEFT w.lib).1 = GLFW_PRESS) →
      (self'.GetTouchCount L' w').1 = (self.GetTouchCount L w).1 := by
  have key : ∀ (τ : Type) (M : GLFW τ) (d : GLFWDriver) (v : World τ),
      (d.GetTouchCount M v).1 =
        (if (M.glfwGetMouseButton d.window_ GLFW_MOUSE_BUTTON_LEFT v.lib).1 = GLFW_PRESS
          then 1 else 0) := by
    intro τ M d v
    by_cases h : (M.glfwGetMouseButton d.window_ GLFW_MOUSE_BUTTON_LEFT v.lib).1 = GLFW_PRESS <;>
      simp [GetTouchCount, World.glfwGetMouseButton, h]
  refine ⟨key σ L self w, ?_, ?_, ?_, ?_, ?_⟩
  · rw [key]
    split_ifs <;> simp
  · by_cases h : (L.glfwGetMouseButton self.window_ GLFW_MOUSE_BUTTON_LEFT w.lib).1 = GLFW_PRESS <;>
      simp [GetTouchCount, World.glfwGetMouseButton, h]
  · by_cases h : (L.glfwGetMouseButton self.window_ GLFW_MOUSE_BUTTON_LEFT w.lib).1 = GLFW_PRESS <;>
      simp [GetTouchCount, World.glfwGetMouseButton, h]
  · by_cases h : (L.glfwGetMouseButton self.window_ GLFW_MOUSE_BUTTON_LEFT w.lib).1 = GLFW_PRESS <;>
      simp [GetTouchCount, World.glfwGetMouseButton, h]
  · intro τ L' self' w' hiff
    rw [key, key]
    simp only [hiff]

/-- C10: in every state `GetScreenWidth` returns 640 and `GetScreenHeight`
returns 480, neither changes the driver object or the world, and the window
`Init` asks the library for has that width and that height. -/
theorem C10_GetScreenWidth_Height (L : GLFW σ) (self : GLFWDriver) (w : World σ) :
    self.GetScreenWidth w = (640, self, w) ∧
    self.GetScreenHeight w = (480, self, w) ∧
    ∀ (d : GLFWDriver) (v : World σ), (L.glfwInit v.lib).1 ≠ 0 →
      Call.glfwCreateWindow (self.GetScreenWidth w).1 (self.GetScreenHeight w).1 "Ebiten test"
        nullptr nullptr (created L v.lib).1 ∈ (d.Init L v).2.2.log ∧
      ∀ a b t m s r, Call.glfwCreateWindow a b t m s r ∈ (d.Init L v).2.2.log →
        Call.glfwCreateWindow a b t m s r ∈ v.log ∨
          (a = (self.GetScreenWidth w).1 ∧ b = (self.GetScreenHeight w).1) := by
  refine ⟨rfl, rfl, ?_⟩
  intro d v h
  by_cases hc : (created L v.lib).1 = nullptr
  · rw [Init_of_create_failed L d v h hc]
    simp [GetScreenWidth, GetScreenHeight, kWidth, kHeight, hc]
    intro a b t m s r hmem
    rcases hmem with hmem | hmem
    · exact Or.inl hmem
    · exact Or.inr ⟨hmem.1, hmem.2.1⟩
  · rw [Init_of_created L d v h hc]
    simp [GetScreenWidth, GetScreenHeight, kWidth, kHeight]
    intro a b t m s r hmem
    rcases hmem with hmem | hmem
    · exact Or.inl hmem
    · exact Or.inr ⟨hmem.1, hmem.2.1⟩

/-- `GetTouch` when the left button is not pressed: the assertion path. -/
theorem GetTouch_of_not_pressed (P : Platform) (L : GLFW σ) (self : GLFWDriver) (idx : Int)
    (id x y : Ptr) (w : World σ)
    (h : (L.glfwGetMouseButton self.window_ GLFW_MOUSE_BUTTON_LEFT w.lib).1 ≠ GLFW_PRESS) :
    self.GetTouch P L idx id x y w =
      if P.ndebug then
        Except.ok (self,
          { lib := (L.glfwGetMouseButton self.window_ GLFW_MOUSE_BUTTON_LEFT w.lib).2,
            mem := w.mem,
            log := w.log ++ [Call.glfwGetMouseButton self.window_ GLFW_MOUSE_BUTTON_LEFT
              (L.glfwGetMouseButton self.window_ GLFW_MOUSE_BUTTON_LEFT w.lib).1] })
      else Except.error Fault.assertion := by
  simp [GetTouch, World.glfwGetMouseButton, h]

/-- `GetTouch` when the left button is pressed: three guarded stores around
one cursor query. -/
theorem GetTouch_of_pressed (P : Platform) (L : GLFW σ) (self : GLFWDriver) (idx : Int)
    (id x y : Ptr) (w : World σ)
    (h : (L.glfwGetMouseButton self.window_ GLFW_MOUSE_BUTTON_LEFT w.lib).1 = GLFW_PRESS) :
    self.GetTouch P L idx id x y w =
      Except.ok (self,
        { lib := (L.glfwGetCursorPos self.window_
            (L.glfwGetMouseButton self.window_ GLFW_MOUSE_BUTTON_LEFT w.lib).2).2,
          mem :=
            storeIf y (static_cast_int P (L.glfwGetCursorPos self.window_
                (L.glfwGetMouseButton self.window_ GLFW_MOUSE_BUTTON_LEFT w.lib).2).1.2)
              (storeIf x (static_cast_int P (L.glfwGetCursorPos self.window_
                  (L.glfwGetMouseButton self.window_ GLFW_MOUSE_BUTTON_LEFT w.lib).2).1.1)
                (storeIf id 0 w.mem)),
          log := w.log ++
            [Call.glfwGetMouseButton self.window_ GLFW_MOUSE_BUTTON_LEFT GLFW_PRESS,
             Call.glfwGetCursorPos self.window_
               (L.glfwGetCursorPos self.window_
                 (L.glfwGetMouseButton self.window_ GLFW_MOUSE_BUTTON_LEFT w.lib).2).1.1
               (L.glfwGetCursorPos self.window_
                 (L.glfwGetMouseButton self.window_ GLFW_MOUSE_BUTTON_LEFT w.lib).2).1.2] }) := by
  by_cases hid : id = nullptr <;> by_cases hx : x = nullptr <;> by_cases hy : y = nullptr <;>
    simp [GetTouch, World.glfwGetMouseButton, World.glfwGetCursorPos, World.store, storeIf,
      h, hid, hx, hy, bind, Except.bind, pure, Except.pure]

/-- Truncation is toward zero: the result has the sign of the argument and
its absolute value is the integer part of the absolute value. -/
theorem truncate_toward_zero (q : ℚ) :
    |(truncate q : ℚ)| ≤ |q| ∧ |q| < |(truncate q : ℚ)| + 1 ∧
    (0 ≤ q → 0 ≤ truncate q) ∧ (q ≤ 0 → truncate q ≤ 0) := by
  unfold truncate
  by_cases h : 0 ≤ q
  · have h0 : (0 : ℤ) ≤ ⌊q⌋ := Int.floor_nonneg.mpr h
    have h0q : (0 : ℚ) ≤ (⌊q⌋ : ℚ) := by exact_mod_cast h0
    simp only [h, if_true]
    rw [abs_of_nonneg h, abs_of_nonneg h0q]
    refine ⟨Int.floor_le q, Int.lt_floor_add_one q, fun _ => h0, ?_⟩
    intro hq
    have : q = 0 := le_antisymm hq h
    simp [this]
  · have hq : q < 0 := not_le.mp h
    have h0 : ⌈q⌉ ≤ (0 : ℤ) := Int.ceil_le.mpr (by simpa using hq.le)
    have h0q : (⌈q⌉ : ℚ) ≤ 0 := by exact_mod_cast h0
    simp only [h, if_false]
    rw [abs_of_neg hq, abs_of_nonpos h0q]
    refine ⟨by linarith [Int.le_ceil q], by linarith [Int.ceil_lt_add_one q], ?_, fun _ => h0⟩
    intro h'
    exact h'.elim

/-- The truncation of the integer `2 ^ 31`. -/
theorem truncate_two_pow_31 : truncate 2147483648 = 2147483648 := by
  have h : ((2147483648 : ℤ) : ℚ) = 2147483648 := by norm_num
  rw [truncate, if_pos (by norm_num), ← h, Int.floor_intCast]

/-- The truncation of minus one half and of seven halves. -/
theorem truncate_examples : truncate (-1 / 2) = 0 ∧ truncate (7 / 2) = 3 := by
  constructor
  · rw [truncate, if_neg (by norm_num), Int.ceil_eq_iff]
    norm_num
  · rw [truncate, if_pos (by norm_num), Int.floor_eq_iff]
    norm_num

/-- C5 (as amended): when the left button is pressed, the library reports the
finite cursor position `(xv, yv)`, and the truncations of `xv` and `yv` toward
zero are values of `int`, `GetTouch(0, id, x, y)` with three non-null outputs
returns after assigning 0 to `*id`, the truncation of `xv` to `*x` and the
truncation of `yv` to `*y`, in this order, so that distinct outputs hold
these three values; the truncation is toward zero, and minus one half
truncates to 0. -/
theorem C5_GetTouch_truncated_cursor (P : Platform) (L : GLFW σ) (self : GLFWDriver)
    (id x y : Ptr) (w : World σ) (xv yv : ℚ)
    (hpress : (L.glfwGetMouseButton self.window_ GLFW_MOUSE_BUTTON_LEFT w.lib).1 = GLFW_PRESS)
    (hcursor : (L.glfwGetCursorPos self.window_
      (L.glfwGetMouseButton self.window_ GLFW_MOUSE_BUTTON_LEFT w.lib).2).1 =
        (Double.finite xv, Double.finite yv))
    (hxrange : INT_MIN ≤ truncate xv ∧ truncate xv ≤ INT_MAX)
    (hyrange : INT_MIN ≤ truncate yv ∧ truncate yv ≤ INT_MAX)
    (hid : id ≠ nullptr) (hx : x ≠ nullptr) (hy : y ≠ nullptr) :
    (∃ w', self.GetTouch P L 0 id x y w = Except.ok (self, w') ∧
      w'.mem = Function.update (Function.update (Function.update w.mem id 0)
        x (truncate xv)) y (truncate yv) ∧
      (id ≠ x → id ≠ y → w'.mem id = 0) ∧
      (x ≠ y → w'.mem x = truncate xv) ∧
      w'.mem y = truncate yv) ∧
    (|(truncate xv : ℚ)| ≤ |xv| ∧ |xv| < |(truncate xv : ℚ)| + 1 ∧
      (0 ≤ xv → 0 ≤ truncate xv) ∧ (xv ≤ 0 → truncate xv ≤ 0)) ∧
    (|(truncate yv : ℚ)| ≤ |yv| ∧ |yv| < |(truncate yv : ℚ)| + 1 ∧
      (0 ≤ yv → 0 ≤ truncate yv) ∧ (yv ≤ 0 → truncate yv ≤ 0)) ∧
    truncate (-1 / 2) = 0 := by
  refine ⟨?_, truncate_toward_zero xv, truncate_toward_zero yv, truncate_examples.1⟩
  rw [GetTouch_of_pressed P L self 0 id x y w hpress, hcursor]
  refine ⟨_, rfl, ?_, ?_, ?_, ?_⟩
  · simp [storeIf, hid, hx, hy, static_cast_int, hxrange, hyrange]
  · intro hidx hidy
    simp [storeIf, hid, hx, hy, Function.update, hidx, hidy]
  · intro hxy
    simp [storeIf, hid, hx, hy, Function.update, hxy, static_cast_int, hxrange]
  · simp [storeIf, hid, hx, hy, Function.update, static_cast_int, hyrange]

/-- C5 (as stated) fails: with the cursor at `xpos = 2147483648`, whose
truncation is not a value of `int`, on no platform does `GetTouch` store the
truncation of `xpos` in `*x`. -/
theorem C5_far_cursor_not_truncated :
    ¬ ∃ (P : Platform) (w' : World Sim),
      GLFWDriver.fresh.GetTouch P Sim.glfw 0 1 2 3 Sim.farCursor.world =
        Except.ok (GLFWDriver.fresh, w') ∧
      w'.mem 2 = truncate 2147483648 := by
  rintro ⟨P, w', hrun, hmem⟩
  have hpress : (Sim.glfw.glfwGetMouseButton GLFWDriver.fresh.window_ GLFW_MOUSE_BUTTON_LEFT
      Sim.farCursor.world.lib).1 = GLFW_PRESS := by
    simp [Sim.glfw, Sim.world, Sim.farCursor]
  rw [GetTouch_of_pressed P Sim.glfw GLFWDriver.fresh 0 1 2 3 Sim.farCursor.world hpress] at hrun
  have hw := (Prod.mk.inj (Except.ok.inj hrun)).2
  rw [← hw] at hmem
  have h2 : static_cast_int P (Double.finite 2147483648) =
      P.invalidInt (Double.finite 2147483648) := by
    simp [static_cast_int, truncate_two_pow_31, INT_MAX]
  simp [storeIf, nullptr, Function.update, Sim.glfw, Sim.world, Sim.farCursor, h2,
    truncate_two_pow_31] at hmem
  have := (P.invalidInt_range (Double.finite 2147483648)).2
  rw [hmem] at this
  simp [INT_MAX] at this

/-- C7: when the left button is pressed, `GetTouch(0, id, x, y)` returns
whichever of `id`, `x`, `y` are null: it never stores through a null pointer.
Its stores are the three guarded stores of 0, of the converted `xpos` and of
the converted `ypos`, the values not depending on which outputs are null; it
changes no `int` object other than the non-null outputs; and every non-null
output (not aliased by a later one) holds the value that the call with three
distinct non-null outputs stores in the corresponding output. -/
theorem C7_GetTouch_null_outputs (P : Platform) (L : GLFW σ) (self : GLFWDriver)
    (id x y : Ptr) (w : World σ)
    (hpress : (L.glfwGetMouseButton self.window_ GLFW_MOUSE_BUTTON_LEFT w.lib).1 = GLFW_PRESS) :
    ∃ w', self.GetTouch P L 0 id x y w = Except.ok (self, w') ∧
      w'.mem =
        storeIf y (static_cast_int P (L.glfwGetCursorPos self.window_
            (L.glfwGetMouseButton self.window_ GLFW_MOUSE_BUTTON_LEFT w.lib).2).1.2)
          (storeIf x (static_cast_int P (L.glfwGetCursorPos self.window_
              (L.glfwGetMouseButton self.window_ GLFW_MOUSE_BUTTON_LEFT w.lib).2).1.1)
            (storeIf id 0 w.mem)) ∧
      (∀ p, p = nullptr ∨ (p ≠ id ∧ p ≠ x ∧ p ≠ y) → w'.mem p = w.mem p) ∧
      ∀ id₀ x₀ y₀ : Ptr, id₀ ≠ nullptr → x₀ ≠ nullptr → y₀ ≠ nullptr →
        id₀ ≠ x₀ → id₀ ≠ y₀ → x₀ ≠ y₀ →
        ∃ w₀, self.GetTouch P L 0 id₀ x₀ y₀ w = Except.ok (self, w₀) ∧
          (id ≠ nullptr → id ≠ x → id ≠ y → w'.mem id = w₀.mem id₀) ∧
          (x ≠ nullptr → x ≠ y → w'.mem x = w₀.mem x₀) ∧
          (y ≠ nullptr → w'.mem y = w₀.mem y₀) ∧
          w'.lib = w₀.lib ∧ w'.log = w₀.log := by
  rw [GetTouch_of_pressed P L self 0 id x y w hpress]
  refine ⟨_, rfl, rfl, ?_, ?_⟩
  · intro p hp
    rcases hp with hp | ⟨h1, h2, h3⟩
    · subst hp
      by_cases hid : id = nullptr <;> by_cases hx : x = nullptr <;> by_cases hy : y = nullptr <;>
        simp [storeIf, Function.update, hid, hx, hy, @eq_comm _ nullptr]
    · by_cases hid : id = nullptr <;> by_cases hx : x = nullptr <;> by_cases hy : y = nullptr <;>
        simp [storeIf, Function.update, hid, hx, hy, h1, h2, h3]
  · intro id₀ x₀ y₀ hid₀ hx₀ hy₀ hidx₀ hidy₀ hxy₀
    rw [GetTouch_of_pressed P L self 0 id₀ x₀ y₀ w hpress]
    refine ⟨_, rfl, ?_, ?_, ?_, rfl, rfl⟩
    · intro hid h1 h2
      by_cases hx : x = nullptr <;> by_cases hy : y = nullptr <;>
        simp [storeIf, Function.update, hid, hx, hy, h1, h2, hid₀, hx₀, hy₀, hidx₀, hidy₀]
    · intro hx h1
      by_cases hy : y = nullptr <;>
        simp [storeIf, Function.update, hx, hy, h1, hx₀, hy₀, hxy₀]
    · intro hy
      simp [storeIf, Function.update, hy, hy₀]

/-- C8 (as amended): whatever the index, when the left button is not pressed
`GetTouch` reaches `assert(false)`: it aborts, or in a build with `NDEBUG`
returns at once, and in both cases stores nothing; the index is not examined,
so a call with any index does what the call with index 0 does, and with the
left button pressed it returns normally. -/
theorem C8_GetTouch_assert_iff_not_pressed (P : Platform) (L : GLFW σ) (self : GLFWDriver)
    (idx : Int) (id x y : Ptr) (w : World σ) :
    ((L.glfwGetMouseButton self.window_ GLFW_MOUSE_BUTTON_LEFT w.lib).1 ≠ GLFW_PRESS →
      (P.ndebug = false → self.GetTouch P L idx id x y w = Except.error Fault.assertion) ∧
      (P.ndebug = true → ∃ w', self.GetTouch P L idx id x y w = Except.ok (self, w') ∧
        w'.mem = w.mem ∧
        w'.log = w.log ++ [Call.glfwGetMouseButton self.window_ GLFW_MOUSE_BUTTON_LEFT
          (L.glfwGetMouseButton self.window_ GLFW_MOUSE_BUTTON_LEFT w.lib).1])) ∧
    self.GetTouch P L idx id x y w = self.GetTouch P L 0 id x y w ∧
    ((L.glfwGetMouseButton self.window_ GLFW_MOUSE_BUTTON_LEFT w.lib).1 = GLFW_PRESS →
      ∃ w', self.GetTouch P L idx id x y w = Except.ok (self, w')) := by
  refine ⟨?_, rfl, ?_⟩
  · intro h
    rw [GetTouch_of_not_pressed P L self idx id x y w h]
    constructor
    · intro hn
      simp [hn]
    · intro hn
      rw [if_pos hn]
      exact ⟨_, rfl, rfl, rfl⟩
  · intro h
    rw [GetTouch_of_pressed P L self idx id x y w h]
    exact ⟨_, rfl⟩

/-- C8 (as stated) fails: in a debug build, with the left button pressed,
`GetTouch(1, id, x, y)` does not abort; it returns and has stored 3 in `*y`,
which held 0. -/
theorem C8_index_one_returns_and_stores :
    ∃ w' : World Sim,
      GLFWDriver.fresh.GetTouch Platform.debug Sim.glfw 1 1 2 3 Sim.desktop.world =
        Except.ok (GLFWDriver.fresh, w') ∧
      w'.mem 3 = 3 ∧ Sim.desktop.world.mem 3 = 0 := by
  have hpress : (Sim.glfw.glfwGetMouseButton GLFWDriver.fresh.window_ GLFW_MOUSE_BUTTON_LEFT
      Sim.desktop.world.lib).1 = GLFW_PRESS := by
    simp [Sim.glfw, Sim.world, Sim.desktop]
  rw [GetTouch_of_pressed Platform.debug Sim.glfw GLFWDriver.fresh 1 1 2 3 Sim.desktop.world
    hpress]
  refine ⟨_, rfl, ?_, rfl⟩
  simp [storeIf, nullptr, Function.update, Sim.glfw, Sim.world, Sim.desktop, static_cast_int,
    truncate_examples.2, INT_MIN, INT_MAX]

/-- No call other than `Init` changes the driver object. -/
theorem step_driver (P : Platform) (L : GLFW σ) (op : Op σ) (st st' : GLFWDriver × World σ)
    (h : step P L op st = Except.ok st') : st'.1 = st.1 := by
  cases op with
  | Update f =>
    simp only [step, Except.ok.injEq] at h
    rw [← h]
    cases f with
    | empty => rw [Update_of_empty]
    | target code =>
      cases hc : code (L.glfwPollEvents st.2.lib, st.2.mem) with
      | returned r => rw [Update_of_returned L st.1 code st.2 r hc]
      | threw r => rw [Update_of_threw L st.1 code st.2 r hc]
  | GetScreenWidth => simp [step, GetScreenWidth] at h; rw [← h]
  | GetScreenHeight => simp [step, GetScreenHeight] at h; rw [← h]
  | GetDevicePixelRatio => simp [step, GetDevicePixelRatio] at h; rw [← h]
  | GetOpenGLFunction name => simp [step, GetOpenGLFunction] at h; rw [← h]
  | GetTouchCount =>
    simp only [step, Except.ok.injEq] at h
    rw [← h]
    by_cases hp : (L.glfwGetMouseButton st.1.window_ GLFW_MOUSE_BUTTON_LEFT st.2.lib).1 =
        GLFW_PRESS <;>
      simp [GetTouchCount, World.glfwGetMouseButton, hp]
  | GetTouch idx id x y =>
    simp only [step] at h
    by_cases hp : (L.glfwGetMouseButton st.1.window_ GLFW_MOUSE_BUTTON_LEFT st.2.lib).1 =
        GLFW_PRESS
    · rw [GetTouch_of_pressed P L st.1 idx id x y st.2 hp] at h
      rw [← Except.ok.inj h]
    · rw [GetTouch_of_not_pressed P L st.1 idx id x y st.2 hp] at h
      by_cases hn : P.ndebug = true
      · simp [hn] at h
        rw [← h]
      · simp [hn] at h

/-- No call other than `GetTouch` aborts the process. -/
theorem step_returns (P : Platform) (L : GLFW σ) (op : Op σ) (st : GLFWDriver × World σ)
    (h : P.ndebug = true ∨ op.isGetTouch = false) : ∃ st', step P L op st = Except.ok st' := by
  cases op with
  | GetTouch idx id x y =>
    simp only [step]
    by_cases hp : (L.glfwGetMouseButton st.1.window_ GLFW_MOUSE_BUTTON_LEFT st.2.lib).1 =
        GLFW_PRESS
    · rw [GetTouch_of_pressed P L st.1 idx id x y st.2 hp]
      exact ⟨_, rfl⟩
    · rw [GetTouch_of_not_pressed P L st.1 idx id x y st.2 hp]
      have hn : P.ndebug = true := by simpa [Op.isGetTouch] using h
      rw [if_pos hn]
      exact ⟨_, rfl⟩
  | _ => exact ⟨_, rfl⟩

/-- The driver object is the same in every state a sequence of calls passes
through. -/
theorem trail_driver (P : Platform) (L : GLFW σ) (ops : List (Op σ))
    (st : GLFWDriver × World σ) : ∀ st' ∈ trail P L ops st, st'.1 = st.1 := by
  induction ops generalizing st with
  | nil => simp [trail]
  | cons op ops ih =>
    intro st' hmem
    rw [trail, List.mem_cons] at hmem
    rcases hmem with rfl | hmem
    · rfl
    · cases hstep : step P L op st with
      | error e => simp [hstep] at hmem
      | ok st1 =>
        rw [hstep] at hmem
        rw [ih st1 st' hmem, step_driver P L op st st1 hstep]

/-- The driver object after a sequence of calls that all return. -/
theorem run_driver (P : Platform) (L : GLFW σ) (ops : List (Op σ))
    (st st' : GLFWDriver × World σ) (h : run P L ops st = Except.ok st') : st'.1 = st.1 := by
  induction ops generalizing st with
  | nil =>
    simp only [run, Except.ok.injEq] at h
    rw [h]
  | cons op ops ih =>
    rw [run] at h
    cases hstep : step P L op st with
    | error e => simp [hstep] at h
    | ok st1 =>
      rw [hstep] at h
      rw [ih st1 h, step_driver P L op st st1 hstep]

/-- No call of a sequence aborts the process when the build defines `NDEBUG`
or no call is a `GetTouch`. -/
theorem run_returns (P : Platform) (L : GLFW σ) (ops : List (Op σ))
    (st : GLFWDriver × World σ)
    (h : P.ndebug = true ∨ ∀ op ∈ ops, op.isGetTouch = false) :
    ∃ st', run P L ops st = Except.ok st' := by
  induction ops generalizing st with
  | nil => exact ⟨st, rfl⟩
  | cons op ops ih =>
    have h1 : P.ndebug = true ∨ op.isGetTouch = false :=
      h.imp id (fun hall => hall op (List.mem_cons_self op ops))
    have h2 : P.ndebug = true ∨ ∀ o ∈ ops, o.isGetTouch = false :=
      h.imp id (fun hall o ho => hall o (List.mem_cons_of_mem op ho))
    obtain ⟨st1, hst1⟩ := step_returns P L op st h1
    obtain ⟨st2, hst2⟩ := ih st1 h2
    exact ⟨st2, by rw [run, hst1]; exact hst2⟩

/-- C9: after an `Init` that returns true the stored window handle is not
null, and in every state that a sequence of calls of `Update`,
`GetScreenWidth`, `GetScreenHeight`, `GetDevicePixelRatio`,
`GetOpenGLFunction`, `GetTouchCount` and `GetTouch` passes through, and in
the state it ends in, `window_` and `device_pixel_ratio_` have the values
`Init` gave them, also after an `Update` that an exception has left; no call
of such a sequence aborts the process when it holds no `GetTouch` or the build
defines `NDEBUG`. -/
theorem C9_window_and_ratio_fixed (P : Platform) (L : GLFW σ) (self : GLFWDriver)
    (w : World σ) (hinit : (self.Init L w).1 = true) :
    (self.Init L w).2.1.window_ ≠ nullptr ∧
    ∀ ops : List (Op σ),
      (∀ st ∈ trail P L ops (self.Init L w).2,
        st.1.window_ = (self.Init L w).2.1.window_ ∧
        st.1.device_pixel_ratio_ = (self.Init L w).2.1.device_pixel_ratio_) ∧
      (∀ st, run P L ops (self.Init L w).2 = Except.ok st →
        st.1.window_ = (self.Init L w).2.1.window_ ∧
        st.1.device_pixel_ratio_ = (self.Init L w).2.1.device_pixel_ratio_) ∧
      ((P.ndebug = true ∨ ∀ op ∈ ops, op.isGetTouch = false) →
        ∃ st, run P L ops (self.Init L w).2 = Except.ok st) := by
  constructor
  · by_cases h : (L.glfwInit w.lib).1 = 0
    · rw [Init_of_init_failed L self w h] at hinit
      simp at hinit
    · by_cases hc : (created L w.lib).1 = nullptr
      · rw [Init_of_create_failed L self w h hc] at hinit
        simp at hinit
      · rw [Init_of_created L self w h hc]
        exact hc
  · intro ops
    refine ⟨?_, ?_, run_returns P L ops _⟩
    · intro st hst
      rw [trail_driver P L ops _ st hst]
      exact ⟨rfl, rfl⟩
    · intro st hst
      rw [run_driver P L ops _ st hst]
      exact ⟨rfl, rfl⟩

/-- C4 (as amended): after an `Init` that returns true, `device_pixel_ratio_`
holds the quotient of the framebuffer width `w` that the library reported for
the new window, converted to `double`, by 640 in `double` arithmetic (not the
integer quotient): when `w` is an `int`, that is the rational `w / 640`
rounded to the nearest binary64 number, within a relative error of
`2 ^ (-53)` of it and equal to it when `w` is a multiple of 5; and
`GetDevicePixelRatio` returns exactly the stored value and changes nothing. -/
theorem C4_device_pixel_ratio (L : GLFW σ) (self : GLFWDriver) (w : World σ)
    (hinit : (self.Init L w).1 = true) :
    (self.Init L w).2.2.log.getLast? =
      some (Call.glfwGetFramebufferSize (self.Init L w).2.1.window_ (measured L w.lib).1.1) ∧
    (self.Init L w).2.1.device_pixel_ratio_ =
      Double.div (Double.ofInt (measured L w.lib).1.1) (Double.ofInt 640) ∧
    (INT_MIN ≤ (measured L w.lib).1.1 ∧ (measured L w.lib).1.1 ≤ INT_MAX →
      (self.Init L w).2.1.device_pixel_ratio_ =
        round64 (((measured L w.lib).1.1 : ℚ) / 640) ∧
      ∃ v : ℚ, (self.Init L w).2.1.device_pixel_ratio_ = Double.finite v ∧
        |v - ((measured L w.lib).1.1 : ℚ) / 640| ≤
          |((measured L w.lib).1.1 : ℚ) / 640| / 2 ^ 53 ∧
        (5 ∣ (measured L w.lib).1.1 → v = ((measured L w.lib).1.1 : ℚ) / 640)) ∧
    ∀ v : World σ, (self.Init L w).2.1.GetDevicePixelRatio v =
      ((self.Init L w).2.1.device_pixel_ratio_, (self.Init L w).2.1, v) := by
  by_cases h : (L.glfwInit w.lib).1 = 0
  · rw [Init_of_init_failed L self w h] at hinit
    simp at hinit
  · by_cases hc : (created L w.lib).1 = nullptr
    · rw [Init_of_create_failed L self w h hc] at hinit
      simp at hinit
    · rw [Init_of_created L self w h hc]
      refine ⟨by simp, rfl, ?_, fun v => rfl⟩
      intro hrange
      exact quotient_by_kWidth _ hrange

/-- The binary64 number nearest to `1366 / 640` is `0x1.1133333333333p+1`. -/
theorem round64_width_1366 :
    round64 (1366 / 640) = Double.finite (4806185227334451 / 2 ^ 51) := by
  decide!

/-- C4 (as stated) fails: with a framebuffer 1366 pixels wide `Init` returns
true and stores `0x1.1133333333333p+1`, that is `4806185227334451 / 2 ^ 51`,
which is not the rational `1366 / 640`. -/
theorem C4_width_1366_not_exact :
    (GLFWDriver.fresh.Init Sim.glfw Sim.laptop.world).1 = true ∧
    (GLFWDriver.fresh.Init Sim.glfw Sim.laptop.world).2.1.device_pixel_ratio_ =
      Double.finite (4806185227334451 / 2 ^ 51) ∧
    (GLFWDriver.fresh.Init Sim.glfw Sim.laptop.world).2.1.device_pixel_ratio_ ≠
      Double.finite (1366 / 640) := by
  have hcast : ((1366 : ℤ) : ℚ) / 640 = 1366 / 640 := by norm_num
  have hq : Double.div (Double.ofInt 1366) (Double.ofInt kWidth) =
      Double.finite (4806185227334451 / 2 ^ 51) := by
    rw [(quotient_by_kWidth 1366 ⟨by decide, by decide⟩).1, hcast]
    exact round64_width_1366
  have hne : Double.finite (4806185227334451 / 2 ^ 51) ≠ Double.finite (1366 / 640) := by
    intro h
    have h' := Double.finite.inj h
    norm_num at h'
  have hdpr : (GLFWDriver.fresh.Init Sim.glfw Sim.laptop.world).2.1.device_pixel_ratio_ =
      Double.div (Double.ofInt 1366) (Double.ofInt kWidth) := rfl
  rw [hdpr, hq]
  exact ⟨rfl, rfl, hne⟩

/-! ### Concrete runs -/

/-- `Init` on the simulated desktop returns true. -/
theorem Init_desktop_true : (GLFWDriver.fresh.Init Sim.glfw Sim.desktop.world).1 = true := by
  rfl

/-- The left button of the simulated desktop is pressed. -/
theorem desktop_pressed (self : GLFWDriver) :
    (Sim.glfw.glfwGetMouseButton self.window_ GLFW_MOUSE_BUTTON_LEFT Sim.desktop.world.lib).1 =
      GLFW_PRESS := by
  rfl

/-- C1 on the driver that `Init` has set up on the simulated desktop, with a
callback that returns: the effects are poll, callback, swap of window 77. -/
theorem C1_witness_desktop :
    (Sim.ready.1.Update Sim.glfw (Callback.ofFun id) Sim.ready.2).1 = Exit.returned ∧
    (Sim.ready.1.Update Sim.glfw (Callback.ofFun id) Sim.ready.2).2.2.log =
      Sim.ready.2.log ++ [Call.glfwPollEvents, Call.callback, Call.glfwSwapBuffers 77] := by
  have h := (C1_Update_poll_callback_swap Sim.glfw Sim.ready.1 Sim.ready.2).1
    (fun s => Outcome.returned (id s)) _ rfl
  exact ⟨congrArg Prod.fst h, congrArg (fun r => r.2.2.log) h⟩

/-- C3 at a library that starts but opens no window: `Init` returns false,
its last call is `glfwTerminate`, and the ratio is not written. -/
theorem C3_witness_no_window :
    (GLFWDriver.fresh.Init Sim.glfw Sim.noWindow.world).1 = false ∧
    (∃ effects, (GLFWDriver.fresh.Init Sim.glfw Sim.noWindow.world).2.2.log =
        Sim.noWindow.world.log ++ effects ∧
      (∀ p, Call.glfwMakeContextCurrent p ∉ effects) ∧
      (∀ n, Call.glfwSwapInterval n ∉ effects) ∧
      (∀ p n, Call.glfwGetFramebufferSize p n ∉ effects)) ∧
    (GLFWDriver.fresh.Init Sim.glfw Sim.noWindow.world).2.1.device_pixel_ratio_ =
      GLFWDriver.fresh.device_pixel_ratio_ ∧
    (GLFWDriver.fresh.Init Sim.glfw Sim.noWindow.world).2.2.mem = Sim.noWindow.world.mem :=
  ⟨rfl, (C3_Init_false_releases Sim.glfw GLFWDriver.fresh Sim.noWindow.world rfl).2⟩

/-- C4 at the simulated desktop, whose framebuffer is 960 pixels wide: the
stored ratio is 3/2. -/
theorem C4_witness_desktop :
    (GLFWDriver.fresh.Init Sim.glfw Sim.desktop.world).1 = true ∧
    (GLFWDriver.fresh.Init Sim.glfw Sim.desktop.world).2.1.device_pixel_ratio_ =
      Double.finite (3 / 2) := by
  refine ⟨Init_desktop_true, ?_⟩
  obtain ⟨-, v, hv, -, h5⟩ :=
    (C4_device_pixel_ratio Sim.glfw GLFWDriver.fresh Sim.desktop.world Init_desktop_true).2.2.1
      ⟨by decide, by decide⟩
  rw [hv, h5 ⟨192, rfl⟩]
  have h960 : (measured Sim.glfw Sim.desktop.world.lib).1.1 = 960 := rfl
  rw [h960]
  norm_num

/-- C5 at the simulated desktop, cursor at `(-1/2, 7/2)`: the outputs are 0,
the truncation of `-1/2` and the truncation of `7/2`. -/
theorem C5_witness_desktop :
    ∃ w', GLFWDriver.fresh.GetTouch Platform.debug Sim.glfw 0 1 2 3 Sim.desktop.world =
        Except.ok (GLFWDriver.fresh, w') ∧
      w'.mem 1 = 0 ∧ w'.mem 2 = truncate (-1 / 2) ∧ w'.mem 3 = truncate (7 / 2) := by
  obtain ⟨w', hrun, -, h1, h2, h3⟩ :=
    (C5_GetTouch_truncated_cursor Platform.debug Sim.glfw GLFWDriver.fresh 1 2 3
      Sim.desktop.world (-1 / 2) (7 / 2) (desktop_pressed _) rfl
      (by rw [truncate_examples.1]; decide) (by rw [truncate_examples.2]; decide)
      (by decide) (by decide) (by decide)).1
  exact ⟨w', hrun, h1 (by decide) (by decide), h2 (by decide), h3⟩

/-- C7 at the simulated desktop with `id` and `y` null: the call returns,
`*x` holds what the call with three outputs stores in its second output, and
the `int` at address 0 is untouched. -/
theorem C7_witness_desktop :
    ∃ w' w₀, GLFWDriver.fresh.GetTouch Platform.debug Sim.glfw 0 0 2 0 Sim.desktop.world =
        Except.ok (GLFWDriver.fresh, w') ∧
      GLFWDriver.fresh.GetTouch Platform.debug Sim.glfw 0 1 2 3 Sim.desktop.world =
        Except.ok (GLFWDriver.fresh, w₀) ∧
      w'.mem 2 = w₀.mem 2 ∧ w'.mem 0 = Sim.desktop.world.mem 0 := by
  obtain ⟨w', h1, -, hrest, hall⟩ :=
    C7_GetTouch_null_outputs Platform.debug Sim.glfw GLFWDriver.fresh 0 2 0
      Sim.desktop.world (desktop_pressed _)
  obtain ⟨w₀, h2, -, hx, -, -, -⟩ :=
    hall 1 2 3 (by decide) (by decide) (by decide) (by decide) (by decide) (by decide)
  exact ⟨w', w₀, h1, h2, hx (by decide) (by decide), hrest 0 (Or.inl rfl)⟩

/-- C8 at the simulated desktop with no button held down, in a debug build:
`GetTouch(5, id, x, y)` aborts at the assertion. -/
theorem C8_witness_idle :
    GLFWDriver.fresh.GetTouch Platform.debug Sim.glfw 5 1 2 3 Sim.idle.world =
      Except.error Fault.assertion :=
  ((C8_GetTouch_assert_iff_not_pressed Platform.debug Sim.glfw GLFWDriver.fresh 5 1 2 3
    Sim.idle.world).1 (by decide)).1 rfl

/-- C2 at the simulated desktop: `Init` returns true and its effects are the
eight calls, in order. -/
theorem C2_witness_desktop :
    (GLFWDriver.fresh.Init Sim.glfw Sim.desktop.world).1 = true ∧
    (GLFWDriver.fresh.Init Sim.glfw Sim.desktop.world).2.2.log =
      [Call.glfwInit 1,
       Call.glfwWindowHint GLFW_CLIENT_API GLFW_OPENGL_API,
       Call.glfwWindowHint GLFW_CONTEXT_VERSION_MAJOR 2,
       Call.glfwWindowHint GLFW_CONTEXT_VERSION_MINOR 1,
       Call.glfwCreateWindow 640 480 "Ebiten test" nullptr nullptr 77,
       Call.glfwMakeContextCurrent 77,
       Call.glfwSwapInterval 1,
       Call.glfwGetFramebufferSize 77 960] :=
  ⟨Init_desktop_true,
    ((C2_Init_true_iff_and_effects Sim.glfw GLFWDriver.fresh Sim.desktop.world).2
      Init_desktop_true).1⟩

/-- C9 at the simulated desktop: after `Init`, an update, an update whose
callback throws, a touch query and a `GetTouch` leave the window handle 77 in
place. -/
theorem C9_witness_desktop :
    (GLFWDriver.fresh.Init Sim.glfw Sim.desktop.world).1 = true ∧
    (GLFWDriver.fresh.Init Sim.glfw Sim.desktop.world).2.1.window_ = 77 ∧
    ∃ st, run Platform.debug Sim.glfw
        [Op.Update (Callback.ofFun id), Op.Update Callback.throwing, Op.GetTouchCount,
         Op.GetTouch 0 1 2 3, Op.GetDevicePixelRatio]
        (GLFWDriver.fresh.Init Sim.glfw Sim.desktop.world).2 = Except.ok st ∧
      st.1.window_ = 77 := by
  refine ⟨Init_desktop_true, rfl, ?_⟩
  have h := (C9_window_and_ratio_fixed Platform.debug Sim.glfw GLFWDriver.fresh
    Sim.desktop.world Init_desktop_true).2
    [Op.Update (Callback.ofFun id), Op.Update Callback.throwing, Op.GetTouchCount,
         Op.GetTouch 0 1 2 3, Op.GetDevicePixelRatio]
  exact ⟨_, rfl, (h.2.1 _ rfl).1⟩

end Theorems

end Ebiten
